import Mathlib

/-
Verification of the support-bot ticket core: the persistence layer
(`persistence.py`), the lifecycle engine (`ticket_manager.py`) and the
relay router (`handlers.py`), shallowly embedded in Lean.

Tickets are rows of the `tickets` table; the table is modelled as a
`List Ticket`.  SQL `UPDATE ... WHERE` statements become `List.map` with a
row-level conditional, and the `cursor.rowcount > 0` result becomes
`List.any` over the same predicate.  Timestamps (`datetime.now()` /
`CURRENT_TIMESTAMP`) are passed in explicitly as natural numbers; `NULL`
columns are `Option`.  Status values are the literal strings written by
the SQL (`CHECK(status IN ('open', 'closed', 'resolved'))`).
-/

namespace SupportBot

/-- A row of the `tickets` table (schema in `persistence.py`,
`_init_sqlite` / `_init_postgres`): `ticket_number` PK, `user_id`,
`username` nullable, `channel_id`, `status`, `created_at`, `closed_at`
nullable. -/
structure Ticket where
  ticket_number : Nat
  user_id : Int
  username : Option String
  channel_id : Int
  status : String
  created_at : Nat
  closed_at : Option Nat
  deriving DecidableEq, Repr

/-- The `tickets` table. -/
abbrev DB := List Ticket

/-- `get_next_ticket_number` (persistence.py): `UPDATE counter SET value =
value + 1 WHERE id = 1` followed by `SELECT value` in the same
transaction.  Input is the current counter cell; output is the returned
ticket number paired with the new counter cell. -/
def get_next_ticket_number (counter : Nat) : Nat × Nat :=
  (counter + 1, counter + 1)

/-- The values returned by `k` successive calls of
`get_next_ticket_number`, threading the counter cell through. -/
def run_next_ticket_number (counter : Nat) : Nat → List Nat
  | 0 => []
  | k + 1 =>
    (get_next_ticket_number counter).1 ::
      run_next_ticket_number (get_next_ticket_number counter).2 k

/-- `close_ticket` (persistence.py): `UPDATE tickets SET status =
'closed', closed_at = now WHERE ticket_number = ?`; returns
`cursor.rowcount > 0`.  Note the `WHERE` clause has no status guard. -/
def close_ticket (db : DB) (ticket_number : Nat) (now : Nat) : DB × Bool :=
  (db.map fun t =>
      if t.ticket_number = ticket_number then
        { t with status := "closed", closed_at := some now }
      else t,
   db.any fun t => t.ticket_number == ticket_number)

/-- `reopen_ticket` (persistence.py): `UPDATE tickets SET status = 'open',
closed_at = NULL WHERE ticket_number = ? AND status = 'closed'`; returns
`cursor.rowcount > 0`. -/
def reopen_ticket (db : DB) (ticket_number : Nat) : DB × Bool :=
  (db.map fun t =>
      if t.ticket_number = ticket_number ∧ t.status = "closed" then
        { t with status := "open", closed_at := none }
      else t,
   db.any fun t => t.ticket_number == ticket_number && t.status == "closed")

/-- `resolve_ticket` (persistence.py): `UPDATE tickets SET status =
'resolved', closed_at = now WHERE ticket_number = ?`; returns
`cursor.rowcount > 0`.  As with `close_ticket`, no status guard. -/
def resolve_ticket (db : DB) (ticket_number : Nat) (now : Nat) : DB × Bool :=
  (db.map fun t =>
      if t.ticket_number = ticket_number then
        { t with status := "resolved", closed_at := some now }
      else t,
   db.any fun t => t.ticket_number == ticket_number)

/-- The `WHERE user_id = ? AND status = ?` row predicate of
`get_ticket_by_user`. -/
def matches_user (user_id : Int) (status : String) (t : Ticket) : Bool :=
  t.user_id == user_id && t.status == status

/-- One step of selecting the row with the greatest `created_at`. -/
def pick_later (acc : Option Ticket) (t : Ticket) : Option Ticket :=
  match acc with
  | none => some t
  | some b => if b.created_at < t.created_at then some t else some b

/-- `ORDER BY created_at DESC LIMIT 1`: the row with the greatest
`created_at` among the candidates (the first such row when tied), `none`
on an empty candidate set. -/
def most_recent (ts : List Ticket) : Option Ticket :=
  ts.foldl pick_later none

/-- `get_ticket_by_user` (persistence.py): `SELECT ... WHERE user_id = ?
AND status = ? ORDER BY created_at DESC LIMIT 1`, `None` when no row
matches. -/
def get_ticket_by_user (db : DB) (user_id : Int) (status : String) :
    Option Ticket :=
  most_recent (db.filter (matches_user user_id status))

/-- `get_ticket_by_channel` (persistence.py): `SELECT ... WHERE
channel_id = ?`, `None` when no row matches. -/
def get_ticket_by_channel (db : DB) (channel_id : Int) : Option Ticket :=
  db.find? fun t => t.channel_id == channel_id

/-- `get_ticket_by_number` (persistence.py): `SELECT ... WHERE
ticket_number = ?`, `None` when no row matches. -/
def get_ticket_by_number (db : DB) (ticket_number : Nat) : Option Ticket :=
  db.find? fun t => t.ticket_number == ticket_number

/-- The durable store state: the `tickets` table plus the `counter`
cell. -/
structure Store where
  tickets : DB
  counter : Nat
  deriving DecidableEq, Repr

/-- `create_ticket` (persistence.py): allocates a number via
`get_next_ticket_number`, then `INSERT INTO tickets (ticket_number,
user_id, username, channel_id, status) VALUES (?, ?, ?, ?, 'open')`.
`created_at` takes the column default (the current timestamp, passed as
`now`); `closed_at` is left `NULL`.  Returns the new store state and the
allocated ticket number. -/
def create_ticket (st : Store) (user_id : Int) (username : Option String)
    (channel_id : Int) (now : Nat) : Store × Nat :=
  let n := (get_next_ticket_number st.counter).1
  ({ tickets := st.tickets ++
      [{ ticket_number := n, user_id := user_id, username := username,
         channel_id := channel_id, status := "open", created_at := now,
         closed_at := none }],
     counter := (get_next_ticket_number st.counter).2 }, n)

/-- The characters stripped by `TicketManager._sanitize_channel_name`:
`<`, `>`, `&`, the double quote (code 34) and the single quote
(code 39). -/
def invalid_chars : List Char := ['<', '>', '&', Char.ofNat 34, Char.ofNat 39]

/-- One `name.replace(char, '')` step: with a single-character pattern
and an empty replacement, `str.replace` deletes every occurrence. -/
def remove_char (s : List Char) (c : Char) : List Char :=
  s.filter fun x => x ≠ c

/-- `TicketManager._sanitize_channel_name` (ticket_manager.py): strip each
character of `invalid_chars` in turn; then, if the result is longer than
128 characters, keep the first 125 and append `"..."`.  Python strings
are sequences of code points, modelled as `List Char`. -/
def sanitize_channel_name (name : List Char) : List Char :=
  let name := invalid_chars.foldl remove_char name
  if name.length > 128 then name.take 125 ++ ['.', '.', '.'] else name

/-- The four mutation paths of the `tickets` table: `create_ticket`,
`close_ticket`, `reopen_ticket` and `resolve_ticket`
(persistence.py). -/
inductive StoreOp where
  | create (user_id : Int) (username : Option String) (channel_id : Int) (now : Nat)
  | close (ticket_number : Nat) (now : Nat)
  | reopen (ticket_number : Nat)
  | resolve (ticket_number : Nat) (now : Nat)
  deriving DecidableEq, Repr

/-- Run one mutation against the store. -/
def apply_op (st : Store) : StoreOp → Store
  | StoreOp.create u un c now => (create_ticket st u un c now).1
  | StoreOp.close n now => { st with tickets := (close_ticket st.tickets n now).1 }
  | StoreOp.reopen n => { st with tickets := (reopen_ticket st.tickets n).1 }
  | StoreOp.resolve n now => { st with tickets := (resolve_ticket st.tickets n now).1 }

/-- Run a sequence of mutations against the store. -/
def apply_ops (st : Store) (ops : List StoreOp) : Store :=
  ops.foldl apply_op st

/-- Invariant I4 for one row: `closed_at` is non-null exactly when the
status is `closed` or `resolved`. -/
abbrev closed_at_coupled (t : Ticket) : Prop :=
  t.closed_at ≠ none ↔ (t.status = "closed" ∨ t.status = "resolved")

/-- Invariant I4 for the whole table. -/
abbrev closed_at_inv (db : DB) : Prop :=
  ∀ t ∈ db, closed_at_coupled t

/-- The dict composed and returned by
`TicketManager.create_ticket_channel` (ticket_manager.py): the keys
`ticket_number`, `user_id`, `username`, `channel_id`, `status`. -/
structure TicketInfo where
  ticket_number : Nat
  user_id : Int
  username : Option String
  channel_id : Int
  status : String
  deriving DecidableEq, Repr

/-- Project a stored row onto the keys of the returned ticket dict. -/
def Ticket.info (t : Ticket) : TicketInfo :=
  { ticket_number := t.ticket_number, user_id := t.user_id,
    username := t.username, channel_id := t.channel_id, status := t.status }

/-- Outcomes of the effectful calls made inside
`TicketManager.create_ticket_channel`'s `try` block.  `topic_result` is
`create_forum_topic`: `some cid` on success, `none` when it raises
`TelegramError` (caught in the method, which then falls back to the admin
group id).  `alloc_ok`, `insert_ok` and `backfill_ok` say whether the
counter update, the row `INSERT` and `_update_ticket_channel` raise a
store-layer exception; `send_ok` says whether the initial
`send_message` raises `TelegramError` (caught and logged in the
method). -/
structure TransportEnv where
  topic_result : Option Int
  alloc_ok : Bool
  insert_ok : Bool
  backfill_ok : Bool
  send_ok : Bool
  deriving DecidableEq, Repr

/-- `TicketManager._update_ticket_channel` (ticket_manager.py): `UPDATE
tickets SET channel_id = ? WHERE ticket_number = ?`. -/
def update_ticket_channel (db : DB) (ticket_number : Nat) (channel_id : Int) :
    DB :=
  db.map fun t =>
    if t.ticket_number = ticket_number then { t with channel_id := channel_id }
    else t

/-- `TicketManager.create_ticket_channel` (ticket_manager.py).  The body
runs under `try ... except Exception: return None`, so every store-layer
exception inside it — the counter update, the `INSERT`, and the
`_update_ticket_channel` backfill — yields `None`; the two
`TelegramError` sites (`create_forum_topic`, the first `send_message`)
are caught by inner handlers and never reach the outer one.  Control
flow: return the user's existing `open` ticket if one exists; otherwise
allocate a number and insert a row with placeholder `channel_id = 0`, fall
back to `admin_group_id` when topic creation fails, backfill the channel
id, attempt the first message, and return the composed dict. -/
def create_ticket_channel (st : Store) (env : TransportEnv)
    (admin_group_id : Int) (user_id : Int) (username : Option String)
    (now : Nat) : Store × Option TicketInfo :=
  match get_ticket_by_user st.tickets user_id "open" with
  | some existing => (st, some existing.info)
  | none =>
    if env.alloc_ok then
      if env.insert_ok then
        let r := create_ticket st user_id username 0 now
        let channel_id := env.topic_result.getD admin_group_id
        if env.backfill_ok then
          ({ r.1 with
              tickets := update_ticket_channel r.1.tickets r.2 channel_id },
           some { ticket_number := r.2, user_id := user_id,
                  username := username, channel_id := channel_id,
                  status := "open" })
        else (r.1, none)
      else ({ st with counter := (get_next_ticket_number st.counter).2 }, none)
    else (st, none)

/-- The channel key resolved by the admin-side handlers (handlers.py):
`message_thread_id` when present, else the chat id.  Python truthiness
(`if update.message.message_thread_id:`) treats both `None` and `0` as
absent. -/
def admin_channel_id (chat_id : Int) (message_thread_id : Option Int) : Int :=
  match message_thread_id with
  | some tid => if tid = 0 then chat_id else tid
  | none => chat_id

/-- `handle_admin_message` (handlers.py), as a routing decision: `some
(user_id, text)` when the handler forwards `text` to the user with that
id, `none` when it returns without sending anything to the user.
Commands (leading `/`) and empty or whitespace-only texts are skipped;
then the ticket is resolved by channel; absent or closed/resolved
tickets are dropped silently. -/
def handle_admin_message (db : DB) (chat_id : Int)
    (message_thread_id : Option Int) (text : String) :
    Option (Int × String) :=
  if text.startsWith "/" then none
  else if text = "" ∨ text.trim = "" then none
  else
    match get_ticket_by_channel db (admin_channel_id chat_id message_thread_id) with
    | none => none
    | some ticket =>
      if ticket.status = "closed" ∨ ticket.status = "resolved" then none
      else some (ticket.user_id, text)

/-- A sample resolved row, used in concrete instantiations. -/
def sampleResolved : Ticket :=
  { ticket_number := 1, user_id := 7, username := none, channel_id := 100,
    status := "resolved", created_at := 0, closed_at := some 3 }

/-- A sample open row, used in concrete instantiations. -/
def sampleOpen : Ticket :=
  { ticket_number := 2, user_id := 1, username := some "alice",
    channel_id := 200, status := "open", created_at := 4, closed_at := none }

/-- A sample closed row, used in concrete instantiations. -/
def sampleClosed : Ticket :=
  { ticket_number := 3, user_id := 2, username := none, channel_id := 300,
    status := "closed", created_at := 6, closed_at := some 8 }

/- ### Helper lemmas -/

lemma run_next_ticket_number_eq (c k : Nat) :
    run_next_ticket_number c k = (List.range k).map fun i => c + i + 1 := by
  induction k generalizing c with
  | zero => rfl
  | succ k ih =>
    simp only [run_next_ticket_number, get_next_ticket_number, ih,
      List.range_succ_eq_map, List.map_cons, List.map_map]
    congr 1
    apply List.map_congr_left
    intro i _
    simp only [Function.comp_apply]
    omega

lemma mem_foldl_remove_char (l : List Char) :
    ∀ (s : List Char) (c : Char), c ∈ l.foldl remove_char s ↔ c ∈ s ∧ c ∉ l := by
  induction l with
  | nil => intro s c; simp
  | cons x xs ih =>
    intro s c
    rw [List.foldl_cons, ih]
    simp only [remove_char, List.mem_filter, List.mem_cons, decide_eq_true_eq]
    constructor
    · rintro ⟨⟨hs, hne⟩, hxs⟩
      exact ⟨hs, fun hc => hc.elim hne hxs⟩
    · rintro ⟨hs, hcons⟩
      exact ⟨⟨hs, fun hc => hcons (Or.inl hc)⟩, fun hc => hcons (Or.inr hc)⟩

lemma length_foldl_remove_char_le (l : List Char) :
    ∀ s : List Char, (l.foldl remove_char s).length ≤ s.length := by
  induction l with
  | nil => intro s; exact le_refl _
  | cons x xs ih =>
    intro s
    exact le_trans (ih (remove_char s x)) (List.length_filter_le _ s)

lemma map_eq_self_of_eq {α : Type _} {f : α → α} :
    ∀ {l : List α}, (∀ a ∈ l, f a = a) → l.map f = l
  | [], _ => rfl
  | x :: xs, h => by
    have hx := h x (List.mem_cons_self x xs)
    have hxs := map_eq_self_of_eq fun a ha => h a (List.mem_cons_of_mem x ha)
    simp [hx, hxs]

lemma closed_at_inv_apply_op (st : Store) (op : StoreOp)
    (h : closed_at_inv st.tickets) : closed_at_inv (apply_op st op).tickets := by
  cases op with
  | create u un c now =>
    intro t ht
    simp only [apply_op, create_ticket] at ht
    rcases List.mem_append.mp ht with ht | ht
    · exact h t ht
    · rw [List.mem_singleton] at ht
      subst ht
      simp [closed_at_coupled]
  | close n now =>
    intro t ht
    simp only [apply_op, close_ticket] at ht
    rcases List.mem_map.mp ht with ⟨u, hu, rfl⟩
    by_cases hn : u.ticket_number = n
    · simp [hn, closed_at_coupled]
    · simpa [hn] using h u hu
  | reopen n =>
    intro t ht
    simp only [apply_op, reopen_ticket] at ht
    rcases List.mem_map.mp ht with ⟨u, hu, rfl⟩
    by_cases hn : u.ticket_number = n ∧ u.status = "closed"
    · simp [hn, closed_at_coupled]
    · simpa [hn] using h u hu
  | resolve n now =>
    intro t ht
    simp only [apply_op, resolve_ticket] at ht
    rcases List.mem_map.mp ht with ⟨u, hu, rfl⟩
    by_cases hn : u.ticket_number = n
    · simp [hn, closed_at_coupled]
    · simpa [hn] using h u hu

lemma pick_later_go (ts : List Ticket) :
    ∀ b : Ticket, ∃ t, ts.foldl pick_later (some b) = some t ∧
      (t = b ∨ t ∈ ts) ∧ b.created_at ≤ t.created_at ∧
      ∀ u ∈ ts, u.created_at ≤ t.created_at := by
  induction ts with
  | nil =>
    intro b
    exact ⟨b, rfl, Or.inl rfl, le_refl _, by simp⟩
  | cons x xs ih =>
    intro b
    by_cases hbx : b.created_at < x.created_at
    · rcases ih x with ⟨t, hfold, hmem, hle, hall⟩
      refine ⟨t, ?_, ?_, le_trans (le_of_lt hbx) hle, ?_⟩
      · simpa [List.foldl_cons, pick_later, hbx] using hfold
      · rcases hmem with rfl | hmem
        · exact Or.inr (List.mem_cons_self _ _)
        · exact Or.inr (List.mem_cons_of_mem _ hmem)
      · intro u hu
        rcases List.mem_cons.mp hu with rfl | hu
        · exact hle
        · exact hall u hu
    · rcases ih b with ⟨t, hfold, hmem, hle, hall⟩
      refine ⟨t, ?_, ?_, hle, ?_⟩
      · simpa [List.foldl_cons, pick_later, hbx] using hfold
      · rcases hmem with rfl | hmem
        · exact Or.inl rfl
        · exact Or.inr (List.mem_cons_of_mem _ hmem)
      · intro u hu
        rcases List.mem_cons.mp hu with rfl | hu
        · exact le_trans (le_of_not_lt hbx) hle
        · exact hall u hu

lemma filter_map_comm {α : Type _} (p : α → Bool) (g : α → α)
    (hpg : ∀ x, p (g x) = p x) :
    ∀ l : List α, (l.map g).filter p = (l.filter p).map g := by
  intro l
  induction l with
  | nil => rfl
  | cons x xs ih =>
    by_cases hx : p x
    · simp [List.filter_cons, hpg, hx, ih]
    · simp [List.filter_cons, hpg, hx, ih]

lemma matches_user_update_channel (uid : Int) (s : String) (n : Nat) (cid : Int)
    (t : Ticket) :
    matches_user uid s
      (if t.ticket_number = n then { t with channel_id := cid } else t) =
    matches_user uid s t := by
  by_cases h : t.ticket_number = n <;> simp [h, matches_user]

lemma most_recent_none_iff (ts : List Ticket) : most_recent ts = none ↔ ts = [] := by
  cases ts with
  | nil => simp [most_recent]
  | cons x xs =>
    rcases pick_later_go xs x with ⟨t, hfold, -, -, -⟩
    simp only [most_recent, List.foldl_cons, pick_later]
    rw [hfold]
    simp

lemma most_recent_some (ts : List Ticket) (t : Ticket)
    (h : most_recent ts = some t) :
    t ∈ ts ∧ ∀ u ∈ ts, u.created_at ≤ t.created_at := by
  cases ts with
  | nil => simp [most_recent] at h
  | cons x xs =>
    rcases pick_later_go xs x with ⟨u, hfold, hmem, hle, hall⟩
    have hu : most_recent (x :: xs) = some u := by
      simp only [most_recent, List.foldl_cons, pick_later]
      exact hfold
    rw [hu] at h
    have := Option.some.inj h
    subst this
    constructor
    · rcases hmem with rfl | hmem
      · exact List.mem_cons_self _ _
      · exact List.mem_cons_of_mem _ hmem
    · intro v hv
      rcases List.mem_cons.mp hv with rfl | hv
      · exact hle
      · exact hall v hv

lemma create_ticket_channel_fresh (st : Store) (env : TransportEnv)
    (admin uid : Int) (uname : Option String) (now : Nat)
    (hl : get_ticket_by_user st.tickets uid "open" = none)
    (ha : env.alloc_ok = true) (hi : env.insert_ok = true)
    (hb : env.backfill_ok = true) :
    create_ticket_channel st env admin uid uname now =
      ({ tickets := update_ticket_channel
            (st.tickets ++
              [{ ticket_number := (st.counter + 1), user_id := uid,
                 username := uname, channel_id := 0, status := "open",
                 created_at := now, closed_at := none }])
            (st.counter + 1) (env.topic_result.getD admin),
         counter := st.counter + 1 },
       some { ticket_number := st.counter + 1, user_id := uid,
              username := uname, channel_id := env.topic_result.getD admin,
              status := "open" }) := by
  simp [create_ticket_channel, hl, ha, hi, hb, create_ticket,
    get_next_ticket_number]

lemma get_ticket_by_user_after_fresh (st : Store) (uid cid : Int)
    (uname : Option String) (now : Nat)
    (hl : get_ticket_by_user st.tickets uid "open" = none) :
    get_ticket_by_user
      (update_ticket_channel
        (st.tickets ++
          [{ ticket_number := (st.counter + 1), user_id := uid,
             username := uname, channel_id := 0, status := "open",
             created_at := now, closed_at := none }])
        (st.counter + 1) cid) uid "open" =
      some { ticket_number := st.counter + 1, user_id := uid,
             username := uname, channel_id := cid, status := "open",
             created_at := now, closed_at := none } := by
  have hfil : st.tickets.filter (matches_user uid "open") = [] :=
    (most_recent_none_iff _).mp (by simpa [get_ticket_by_user] using hl)
  rw [get_ticket_by_user, update_ticket_channel,
    filter_map_comm _ _ (matches_user_update_channel uid "open" (st.counter + 1) cid),
    List.filter_append, hfil]
  simp [matches_user, most_recent, pick_later]

/- ### C2: ticket numbers are fresh and strictly increasing -/

/-- C2: from any counter state, successive `get_next_ticket_number` calls
return `c + 1, c + 2, ...`: the `i`-th call returns the counter value it
started from plus one, the values are strictly increasing along the call
order, hence pairwise distinct, and no returned value recurs later. -/
theorem ticket_numbers_increasing (c k : Nat) :
    List.Pairwise (· < ·) (run_next_ticket_number c k) ∧
    ∀ i, i < k → (run_next_ticket_number c k).get? i = some (c + i + 1) := by
  rw [run_next_ticket_number_eq]
  constructor
  · refine List.Pairwise.map _ ?_ (List.pairwise_lt_range k)
    intro a b hab
    omega
  · intro i hi
    rw [List.get?_map, List.get?_range hi]
    rfl

/-- Witness for C2 at `c = 5`, `k = 3`. -/
theorem ticket_numbers_increasing_witness :
    (0 : Nat) < 3 ∧ (run_next_ticket_number 5 3).get? 0 = some 6 :=
  ⟨by decide, (ticket_numbers_increasing 5 3).2 0 (by decide)⟩

/- ### C8: channel-name sanitizer -/

/-- C8: the sanitizer removes every occurrence of `<`, `>`, `&`, `"` and
`'`; an input of at most 128 characters is otherwise unchanged (only the
removals apply); and whenever the stripped text still exceeds 128
characters it is truncated to exactly 128 characters ending in the
ellipsis marker `...`.  Hence the result never exceeds 128 characters and
never contains a stripped character. -/
theorem sanitize_channel_name_spec (name : List Char) :
    (∀ c ∈ sanitize_channel_name name, c ∉ invalid_chars) ∧
    (sanitize_channel_name name).length ≤ 128 ∧
    (name.length ≤ 128 →
      sanitize_channel_name name = invalid_chars.foldl remove_char name) ∧
    ((invalid_chars.foldl remove_char name).length > 128 →
      (sanitize_channel_name name).length = 128 ∧
      (sanitize_channel_name name).drop 125 = ['.', '.', '.']) := by
  by_cases hlen : (invalid_chars.foldl remove_char name).length > 128
  · have hres : sanitize_channel_name name =
        (invalid_chars.foldl remove_char name).take 125 ++ ['.', '.', '.'] := by
      simp [sanitize_channel_name, hlen]
    have h125 : ((invalid_chars.foldl remove_char name).take 125).length = 125 := by
      rw [List.length_take]
      omega
    refine ⟨?_, ?_, ?_, fun _ => ⟨?_, ?_⟩⟩
    · intro c hc hcin
      rw [hres, List.mem_append] at hc
      rcases hc with hc | hc
      · exact ((mem_foldl_remove_char invalid_chars name c).1
          (List.take_subset 125 _ hc)).2 hcin
      · have hcd : c = '.' := by simpa using hc
        subst hcd
        revert hcin
        decide
    · rw [hres, List.length_append, h125]
      simp
    · intro hshort
      have := length_foldl_remove_char_le invalid_chars name
      omega
    · rw [hres, List.length_append, h125]
      simp
    · rw [hres]
      have := List.drop_left ((invalid_chars.foldl remove_char name).take 125)
        ['.', '.', '.']
      rw [h125] at this
      exact this
  · have hres : sanitize_channel_name name =
        invalid_chars.foldl remove_char name := by
      simp [sanitize_channel_name, hlen]
    refine ⟨?_, ?_, fun _ => hres, fun h => absurd h hlen⟩
    · intro c hc hcin
      rw [hres] at hc
      exact ((mem_foldl_remove_char invalid_chars name c).1 hc).2 hcin
    · rw [hres]
      omega

set_option maxRecDepth 4000 in
/-- Witness for C8: a 130-character input is truncated to 128. -/
theorem sanitize_channel_name_spec_witness :
    (invalid_chars.foldl remove_char (List.replicate 130 'a')).length > 128 ∧
    (sanitize_channel_name (List.replicate 130 'a')).length = 128 :=
  ⟨by decide, ((sanitize_channel_name_spec (List.replicate 130 'a')).2.2.2
      (by decide)).1⟩

/- ### C3: status and closed_at stay coupled -/

/-- C3: invariant I4 — `closed_at` is non-null exactly when `status` is
`closed` or `resolved` — is preserved by every sequence of
`create_ticket`, `close_ticket`, `resolve_ticket` and `reopen_ticket`
operations: creation inserts an `open` row with null `closed_at`, close
and resolve write `closed_at` together with the status, and reopen
clears `closed_at` together with setting `open`. -/
theorem closed_at_status_coupling (st : Store) (ops : List StoreOp)
    (h : closed_at_inv st.tickets) : closed_at_inv (apply_ops st ops).tickets := by
  induction ops generalizing st with
  | nil => exact h
  | cons op ops ih => exact ih (apply_op st op) (closed_at_inv_apply_op st op h)

/-- Witness for C3: the empty store, a create followed by a close. -/
theorem closed_at_status_coupling_witness :
    closed_at_inv (Store.mk [] 0).tickets ∧
    closed_at_inv (apply_ops (Store.mk [] 0)
      [StoreOp.create 1 none 0 5, StoreOp.close 1 7]).tickets :=
  ⟨by decide, closed_at_status_coupling (Store.mk [] 0)
      [StoreOp.create 1 none 0 5, StoreOp.close 1 7] (by decide)⟩

/- ### C1: the transition edges of the state machine -/

/-- C1 counterexample: a ticket in the `resolved` state is not terminal.
`close_ticket`'s `UPDATE` has no status guard in its `WHERE` clause, so
on a resolved ticket it reports a changed row and moves the status to
`closed`. -/
theorem resolved_not_terminal_counterexample :
    sampleResolved.status = "resolved" ∧
    close_ticket [sampleResolved] 1 5 =
      ([{ sampleResolved with status := "closed", closed_at := some 5 }],
       true) := by
  decide

/-- C1 amended: creation yields `open`; `reopen_ticket` moves a ticket to
`open` exactly when its status is `closed` and leaves tickets in any
other status unchanged; but `close_ticket` and `resolve_ticket` carry no
status precondition: they move a matching ticket — whatever its status,
including `resolved` — to `closed` resp. `resolved`.  In particular
`resolved` is not terminal: `close_ticket` moves a resolved ticket back
to `closed`. -/
theorem status_transition_edges (db : DB) (n now : Nat) (t : Ticket)
    (hmem : t ∈ db) (hn : t.ticket_number = n) :
    { t with status := "closed", closed_at := some now } ∈
      (close_ticket db n now).1 ∧
    { t with status := "resolved", closed_at := some now } ∈
      (resolve_ticket db n now).1 ∧
    (t.status = "closed" →
      { t with status := "open", closed_at := none } ∈ (reopen_ticket db n).1) ∧
    (t.status ≠ "closed" → t ∈ (reopen_ticket db n).1) := by
  refine ⟨?_, ?_, ?_, ?_⟩
  · have h := List.mem_map_of_mem (fun u : Ticket =>
      if u.ticket_number = n then
        { u with status := "closed", closed_at := some now }
      else u) hmem
    simpa [close_ticket, hn] using h
  · have h := List.mem_map_of_mem (fun u : Ticket =>
      if u.ticket_number = n then
        { u with status := "resolved", closed_at := some now }
      else u) hmem
    simpa [resolve_ticket, hn] using h
  · intro hs
    have h := List.mem_map_of_mem (fun u : Ticket =>
      if u.ticket_number = n ∧ u.status = "closed" then
        { u with status := "open", closed_at := none }
      else u) hmem
    simpa [reopen_ticket, hn, hs] using h
  · intro hs
    have h := List.mem_map_of_mem (fun u : Ticket =>
      if u.ticket_number = n ∧ u.status = "closed" then
        { u with status := "open", closed_at := none }
      else u) hmem
    simpa [reopen_ticket, hn, hs] using h

/-- Witness for C1 (amended) on a resolved row: close re-closes it,
resolve re-resolves it, and reopen leaves it unchanged. -/
theorem status_transition_edges_witness :
    (sampleResolved ∈ [sampleResolved] ∧ sampleResolved.ticket_number = 1) ∧
    { sampleResolved with status := "closed", closed_at := some 5 } ∈
      (close_ticket [sampleResolved] 1 5).1 ∧
    sampleResolved ∈ (reopen_ticket [sampleResolved] 1).1 :=
  ⟨⟨by decide, by decide⟩,
   (status_transition_edges [sampleResolved] 1 5 sampleResolved (by decide)
      (by decide)).1,
   (status_transition_edges [sampleResolved] 1 5 sampleResolved (by decide)
      (by decide)).2.2.2 (by decide)⟩

/- ### C7: reopen requires a closed ticket and reports a changed row -/

/-- C7: `reopen_ticket` returns `true` exactly when some row has the
given number and status `closed`; such rows become `open` with null
`closed_at`; when it returns `false` (ticket absent, or status `open` or
`resolved`) the table is left unchanged; rows not matching the `WHERE`
clause are untouched. -/
theorem reopen_ticket_spec (db : DB) (n : Nat) :
    ((reopen_ticket db n).2 = true ↔
      ∃ t ∈ db, t.ticket_number = n ∧ t.status = "closed") ∧
    ((reopen_ticket db n).2 = false → (reopen_ticket db n).1 = db) ∧
    (∀ t ∈ db, t.ticket_number = n → t.status = "closed" →
      { t with status := "open", closed_at := none } ∈ (reopen_ticket db n).1) ∧
    (∀ t ∈ db, ¬(t.ticket_number = n ∧ t.status = "closed") →
      t ∈ (reopen_ticket db n).1) := by
  refine ⟨?_, ?_, ?_, ?_⟩
  · simp [reopen_ticket, List.any_eq_true]
  · intro hfalse
    simp only [reopen_ticket, List.any_eq_false, Bool.and_eq_true,
      beq_iff_eq, not_and] at hfalse
    simp only [reopen_ticket]
    apply map_eq_self_of_eq
    intro t ht
    have hne : ¬(t.ticket_number = n ∧ t.status = "closed") :=
      fun hc => hfalse t ht hc.1 hc.2
    simp [hne]
  · intro t ht hn hs
    have h := List.mem_map_of_mem (fun u : Ticket =>
      if u.ticket_number = n ∧ u.status = "closed" then
        { u with status := "open", closed_at := none }
      else u) ht
    simpa [reopen_ticket, hn, hs] using h
  · intro t ht hne
    have h := List.mem_map_of_mem (fun u : Ticket =>
      if u.ticket_number = n ∧ u.status = "closed" then
        { u with status := "open", closed_at := none }
      else u) ht
    simpa [reopen_ticket, hne] using h

/-- Witness for C7: reopening a closed row yields the open row. -/
theorem reopen_ticket_spec_witness :
    (sampleClosed ∈ [sampleClosed] ∧ sampleClosed.ticket_number = 3 ∧
      sampleClosed.status = "closed") ∧
    { sampleClosed with status := "open", closed_at := none } ∈
      (reopen_ticket [sampleClosed] 3).1 :=
  ⟨⟨by decide, by decide, by decide⟩,
   (reopen_ticket_spec [sampleClosed] 3).2.2.1 sampleClosed (by decide)
      (by decide) (by decide)⟩

/- ### C10: resolve has no status precondition -/

/-- C10: `resolve_ticket` returns `true` exactly when a row with the
given number exists, whatever its status — `open`, `closed`, or already
`resolved`; every such row is set to `resolved` with `closed_at`
overwritten by the current time (so re-resolving refreshes the
timestamp); it returns `false`, leaving the table unchanged, only when
no row with that number exists. -/
theorem resolve_ticket_no_precondition (db : DB) (n now : Nat) :
    ((resolve_ticket db n now).2 = true ↔ ∃ t ∈ db, t.ticket_number = n) ∧
    (∀ t ∈ db, t.ticket_number = n →
      { t with status := "resolved", closed_at := some now } ∈
        (resolve_ticket db n now).1) ∧
    ((resolve_ticket db n now).2 = false → (resolve_ticket db n now).1 = db) := by
  refine ⟨?_, ?_, ?_⟩
  · simp [resolve_ticket, List.any_eq_true]
  · intro t ht hn
    have h := List.mem_map_of_mem (fun u : Ticket =>
      if u.ticket_number = n then
        { u with status := "resolved", closed_at := some now }
      else u) ht
    simpa [resolve_ticket, hn] using h
  · intro hfalse
    simp only [resolve_ticket, List.any_eq_false, beq_iff_eq] at hfalse
    simp only [resolve_ticket]
    apply map_eq_self_of_eq
    intro t ht
    simp [hfalse t ht]

/-- Witness for C10: re-resolving an already-resolved row succeeds and
refreshes `closed_at`. -/
theorem resolve_ticket_no_precondition_witness :
    (sampleResolved ∈ [sampleResolved] ∧ sampleResolved.ticket_number = 1) ∧
    { sampleResolved with status := "resolved", closed_at := some 9 } ∈
      (resolve_ticket [sampleResolved] 1 9).1 :=
  ⟨⟨by decide, by decide⟩,
   (resolve_ticket_no_precondition [sampleResolved] 1 9).2.1 sampleResolved
      (by decide) (by decide)⟩

/- ### C9: lookup by user returns the most recent match, absence as None -/

/-- C9: `get_ticket_by_user` returns `none` — a normal absence value, not
an error — exactly when no row has the requested `user_id` and `status`;
and when it returns a row, that row matches and has the greatest
`created_at` among all matching rows. -/
theorem get_ticket_by_user_most_recent (db : DB) (uid : Int) (s : String) :
    (get_ticket_by_user db uid s = none ↔
      ∀ t ∈ db, ¬(t.user_id = uid ∧ t.status = s)) ∧
    ∀ t, get_ticket_by_user db uid s = some t →
      t ∈ db ∧ t.user_id = uid ∧ t.status = s ∧
      ∀ u ∈ db, u.user_id = uid → u.status = s →
        u.created_at ≤ t.created_at := by
  constructor
  · rw [get_ticket_by_user, most_recent_none_iff, List.filter_eq_nil]
    simp [matches_user]
  · intro t h
    rw [get_ticket_by_user] at h
    obtain ⟨hmem, hall⟩ := most_recent_some _ t h
    rw [List.mem_filter] at hmem
    have hmu : t.user_id = uid ∧ t.status = s := by
      simpa [matches_user] using hmem.2
    refine ⟨hmem.1, hmu.1, hmu.2, ?_⟩
    intro u hu h1 h2
    exact hall u (List.mem_filter.mpr ⟨hu, by simp [matches_user, h1, h2]⟩)

/-- Witness for C9: the single open row of user 1 is returned. -/
theorem get_ticket_by_user_most_recent_witness :
    get_ticket_by_user [sampleOpen] 1 "open" = some sampleOpen ∧
    sampleOpen ∈ [sampleOpen] ∧ sampleOpen.user_id = 1 ∧
    sampleOpen.status = "open" :=
  ⟨by decide,
   ((get_ticket_by_user_most_recent [sampleOpen] 1 "open").2 sampleOpen
      (by decide)).1,
   ((get_ticket_by_user_most_recent [sampleOpen] 1 "open").2 sampleOpen
      (by decide)).2.1,
   ((get_ticket_by_user_most_recent [sampleOpen] 1 "open").2 sampleOpen
      (by decide)).2.2.1⟩

/- ### C6: admin messages into absent or closed/resolved channels -/

/-- C6: when the reverse lookup for the channel finds no ticket, or finds
one whose status is `closed` or `resolved`, `handle_admin_message`
forwards nothing to the user and returns silently. -/
theorem admin_message_dropped_when_not_open (db : DB) (chat_id : Int)
    (tid : Option Int) (text : String)
    (h : get_ticket_by_channel db (admin_channel_id chat_id tid) = none ∨
      ∃ t, get_ticket_by_channel db (admin_channel_id chat_id tid) = some t ∧
        (t.status = "closed" ∨ t.status = "resolved")) :
    handle_admin_message db chat_id tid text = none := by
  rcases h with h | ⟨t, ht, hs⟩
  · simp [handle_admin_message, h]
  · simp [handle_admin_message, ht, hs]

/-- Witness for C6: a message into the channel of a resolved ticket is
dropped. -/
theorem admin_message_dropped_when_not_open_witness :
    (∃ t, get_ticket_by_channel [sampleResolved]
        (admin_channel_id 100 none) = some t ∧
      (t.status = "closed" ∨ t.status = "resolved")) ∧
    handle_admin_message [sampleResolved] 100 none "hi" = none :=
  ⟨⟨sampleResolved, by decide, Or.inr (by decide)⟩,
   admin_message_dropped_when_not_open [sampleResolved] 100 none "hi"
     (Or.inr ⟨sampleResolved, by decide, Or.inr (by decide)⟩)⟩

/- ### C4: ticket creation is idempotent for open tickets -/

/-- C4: when the user already has an open ticket,
`create_ticket_channel` returns that ticket and changes nothing — no
number is allocated and no row is inserted; and after any successful
call (with no close in between), an immediately repeated call — under
any transport outcomes — returns the very same ticket info and leaves
the store untouched. -/
theorem create_ticket_channel_idempotent (st : Store) (env env2 : TransportEnv)
    (admin uid : Int) (uname : Option String) (now now2 : Nat) :
    (∀ t, get_ticket_by_user st.tickets uid "open" = some t →
      create_ticket_channel st env admin uid uname now = (st, some t.info)) ∧
    (∀ st1 info,
      create_ticket_channel st env admin uid uname now = (st1, some info) →
      create_ticket_channel st1 env2 admin uid uname now2 = (st1, some info)) := by
  constructor
  · intro t ht
    simp [create_ticket_channel, ht]
  · intro st1 info h
    cases hl : get_ticket_by_user st.tickets uid "open" with
    | some t =>
      simp only [create_ticket_channel, hl] at h
      rw [Prod.mk.injEq] at h
      obtain ⟨h1, h2⟩ := h
      subst h1
      rw [Option.some.injEq] at h2
      subst h2
      simp [create_ticket_channel, hl]
    | none =>
      by_cases ha : env.alloc_ok
      · by_cases hi : env.insert_ok
        · by_cases hb : env.backfill_ok
          · rw [create_ticket_channel_fresh st env admin uid uname now hl ha hi hb,
              Prod.mk.injEq] at h
            obtain ⟨h1, h2⟩ := h
            subst h1
            rw [Option.some.injEq] at h2
            subst h2
            have h3 := get_ticket_by_user_after_fresh st uid
              (env.topic_result.getD admin) uname now hl
            simp [create_ticket_channel, h3, Ticket.info]
          · simp [create_ticket_channel, hl, ha, hi, hb] at h
        · simp [create_ticket_channel, hl, ha, hi] at h
      · simp [create_ticket_channel, hl, ha] at h

/-- Witness for C4: a user with an open ticket gets it back unchanged. -/
theorem create_ticket_channel_idempotent_witness :
    get_ticket_by_user (Store.mk [sampleOpen] 5).tickets 1 "open" =
      some sampleOpen ∧
    create_ticket_channel (Store.mk [sampleOpen] 5)
        (TransportEnv.mk none true true true true) 99 1 none 10 =
      (Store.mk [sampleOpen] 5, some sampleOpen.info) :=
  ⟨by decide,
   (create_ticket_channel_idempotent (Store.mk [sampleOpen] 5)
      (TransportEnv.mk none true true true true)
      (TransportEnv.mk none true true true true) 99 1 none 10 10).1
     sampleOpen (by decide)⟩

/- ### C5: when creation returns null -/

/-- C5 counterexample: a store-layer failure in the channel-id backfill —
a step that runs after the row has been inserted — is caught by the
method's outer `except Exception` and converted into a `None` return:
here the row exists in the store afterwards, yet the result is `None`. -/
theorem backfill_failure_returns_none_counterexample :
    (create_ticket_channel (Store.mk [] 0)
        (TransportEnv.mk (some 50) true true false true) 99 1 none 0).2 =
      none ∧
    (create_ticket_channel (Store.mk [] 0)
        (TransportEnv.mk (some 50) true true false true) 99 1 none 0).1.tickets =
      [{ ticket_number := 1, user_id := 1, username := none, channel_id := 0,
         status := "open", created_at := 0, closed_at := none }] := by
  decide

/-- C5 amended: `create_ticket_channel` returns `None` exactly when the
user has no existing open ticket and one of the store operations in the
body raises — the number allocation, the row insertion, or the
channel-id backfill that runs after the row is inserted.  The outer
`except Exception` converts all of these into `None` instead of letting
the post-insert ones propagate; Telegram-side failures (channel
creation, which falls back to the admin group, and first-message
delivery) never cause a `None` return. -/
theorem create_ticket_channel_none_iff (st : Store) (env : TransportEnv)
    (admin uid : Int) (uname : Option String) (now : Nat) :
    (create_ticket_channel st env admin uid uname now).2 = none ↔
      (get_ticket_by_user st.tickets uid "open" = none ∧
        (env.alloc_ok = false ∨ env.insert_ok = false ∨
          env.backfill_ok = false)) := by
  cases hl : get_ticket_by_user st.tickets uid "open" with
  | some t => simp [create_ticket_channel, hl]
  | none =>
    by_cases ha : env.alloc_ok
    · by_cases hi : env.insert_ok
      · by_cases hb : env.backfill_ok
        · simp [create_ticket_channel, hl, ha, hi, hb]
        · simp [create_ticket_channel, hl, ha, hi, hb]
      · simp [create_ticket_channel, hl, ha, hi]
    · simp [create_ticket_channel, hl, ha]

end SupportBot
